import Mathlib

/-!
Verification of the sRGB alpha-composition unit test
`contrib/libtests/pngfix764.c` from libpng.

The file embeds the C function `srgb_compose`, the fixed test-vector
table `tests`, and a 32-bit machine-arithmetic variant of the blend
expression, and proves the stated properties of the composition formula.
-/

namespace Pngfix764

/-- The sRGB composition formula of `srgb_compose` in `pngfix764.c`:
fully transparent (`alpha = 0`) yields the background, fully opaque
(`alpha = 255`) yields the foreground, and otherwise the blend
`foreground + ((255 - alpha) * background + 127) / 255` is computed with
integer floor division and clamped to 255. -/
def srgb_compose (foreground alpha background : Nat) : Nat :=
  if alpha = 0 then
    background
  else if alpha = 255 then
    foreground
  else
    let result := foreground + ((255 - alpha) * background + 127) / 255
    if result > 255 then 255 else result

/-- The modulus of C `unsigned int` arithmetic (32 bits), `2 ^ 32`. -/
def M32 : Nat := 4294967296

/-- The blend branch of `srgb_compose` with every intermediate operation
performed in `unsigned int` arithmetic, i.e. reduced modulo `2 ^ 32`:
the subtraction `255 - alpha` wraps around (modelled as
`(255 + M32 - alpha) % M32` for `alpha < M32`), and each product, sum
and the final total are reduced modulo `M32`. -/
def srgb_compose_u32 (foreground alpha background : Nat) : Nat :=
  if alpha = 0 then
    background
  else if alpha = 255 then
    foreground
  else
    let diff := (255 + M32 - alpha) % M32
    let num := (diff * background % M32 + 127) % M32
    let result := (foreground + num / 255) % M32
    if result > 255 then 255 else result

/-- One row of the fixed test-vector table of `pngfix764.c`. -/
structure test_vector where
  fg : Nat
  alpha : Nat
  bg : Nat
  expected : Nat
  desc : String
deriving DecidableEq

/-- The fixed test-vector table `tests` of `pngfix764.c`, in source order. -/
def tests : List test_vector := [
  ⟨0, 0, 255, 255, "transparent black on white: background only"⟩,
  ⟨255, 0, 0, 0, "transparent white on black: background only"⟩,
  ⟨100, 0, 200, 200, "transparent on gray: background only"⟩,
  ⟨123, 0, 45, 45, "transparent: foreground ignored"⟩,
  ⟨255, 255, 0, 255, "opaque white on black: foreground only"⟩,
  ⟨0, 255, 255, 0, "opaque black on white: foreground only"⟩,
  ⟨100, 255, 200, 100, "opaque on gray: foreground only"⟩,
  ⟨128, 128, 128, 192, "50% gray on gray: 128 + (127*128+127)/255 = 192"⟩,
  ⟨0, 128, 255, 127, "50% black on white: 0 + (127*255+127)/255 = 127"⟩,
  ⟨255, 128, 0, 255, "50% white on black: 255 + 0 = 255"⟩,
  ⟨100, 128, 200, 200, "50% blend: 100 + (127*200+127)/255 = 200"⟩,
  ⟨134, 118, 73, 173, "PoC case 1: fg > alpha"⟩,
  ⟨194, 140, 73, 227, "PoC case 2: fg > alpha"⟩,
  ⟨249, 242, 73, 253, "PoC case 3: fg > alpha"⟩,
  ⟨255, 1, 255, 255, "near-transparent white on white: clamp"⟩,
  ⟨200, 50, 200, if 361 > 255 then 255 else 361, "overflow case: clamp to 255"⟩,
  ⟨250, 10, 250, 255, "high values low alpha: clamp"⟩,
  ⟨0, 254, 255, 1, "nearly opaque: (1*255+127)/255 = 1"⟩,
  ⟨0, 253, 255, 2, "nearly opaque: (2*255+127)/255 = 2"⟩,
  ⟨0, 1, 1, 1, "nearly transparent low bg: (254*1+127)/255 = 1"⟩,
  ⟨0, 128, 73, 36, "transparent on default buffer"⟩,
  ⟨128, 64, 73, 183, "partial on default buffer"⟩,
  ⟨254, 1, 254, 255, "max non-overflow: 254 + 253 = 507 -> 255"⟩,
  ⟨1, 254, 1, 1, "min result with alpha: 1 + 0 = 1"⟩
]

/-- In the blend branch (`alpha` neither 0 nor 255) the composition is the
blend expression clamped from above by 255. -/
theorem srgb_compose_eq_min (f a b : Nat) (h0 : a ≠ 0) (h255 : a ≠ 255) :
    srgb_compose f a b = min 255 (f + ((255 - a) * b + 127) / 255) := by
  simp only [srgb_compose, if_neg h0, if_neg h255]
  split <;> omega

/-- Claim C1: for every foreground, alpha, background in [0,255] with
1 ≤ alpha ≤ 254, `srgb_compose` equals the blend
`foreground + ((255 - alpha) * background + 127) / 255` computed with
integer floor division, clamped to 255 from above, i.e. it equals
`min 255 (foreground + ((255 - alpha) * background + 127) / 255)`. -/
theorem c1_blend_formula (f a b : Nat) (hf : f ≤ 255) (ha1 : 1 ≤ a)
    (ha2 : a ≤ 254) (hb : b ≤ 255) :
    srgb_compose f a b = min 255 (f + ((255 - a) * b + 127) / 255) :=
  srgb_compose_eq_min f a b (by omega) (by omega)

/-- Witness for C1 at foreground 128, alpha 128, background 128. -/
theorem c1_blend_formula_witness :
    srgb_compose 128 128 128 = min 255 (128 + ((255 - 128) * 128 + 127) / 255) :=
  c1_blend_formula 128 128 128 (by decide) (by decide) (by decide) (by decide)

/-- Claim C2: for every foreground, alpha, background each in [0,255],
the result of `srgb_compose` lies in [0,255]. -/
theorem c2_range_closure (f a b : Nat) (hf : f ≤ 255) (ha : a ≤ 255)
    (hb : b ≤ 255) :
    0 ≤ srgb_compose f a b ∧ srgb_compose f a b ≤ 255 := by
  refine ⟨Nat.zero_le _, ?_⟩
  simp only [srgb_compose]
  split
  · exact hb
  split
  · exact hf
  split <;> omega

/-- Witness for C2 at foreground 200, alpha 50, background 200. -/
theorem c2_range_closure_witness :
    0 ≤ srgb_compose 200 50 200 ∧ srgb_compose 200 50 200 ≤ 255 :=
  c2_range_closure 200 50 200 (by decide) (by decide) (by decide)

/-- Claim C3: for fixed foreground in [0,255] and fixed alpha in [1,254],
`srgb_compose` is weakly monotonic in the background argument. -/
theorem c3_background_monotone (f a b1 b2 : Nat) (hf : f ≤ 255)
    (ha1 : 1 ≤ a) (ha2 : a ≤ 254) (hb1 : b1 ≤ 255) (hb2 : b2 ≤ 255)
    (hb : b1 ≤ b2) :
    srgb_compose f a b1 ≤ srgb_compose f a b2 := by
  have hx : ((255 - a) * b1 + 127) / 255 ≤ ((255 - a) * b2 + 127) / 255 := by
    apply Nat.div_le_div_right
    have := Nat.mul_le_mul_left (255 - a) hb
    omega
  rw [srgb_compose_eq_min f a b1 (by omega) (by omega),
      srgb_compose_eq_min f a b2 (by omega) (by omega)]
  omega

/-- Witness for C3 at foreground 100, alpha 128, backgrounds 50 ≤ 200. -/
theorem c3_background_monotone_witness :
    srgb_compose 100 128 50 ≤ srgb_compose 100 128 200 :=
  c3_background_monotone 100 128 50 200 (by decide) (by decide) (by decide)
    (by decide) (by decide) (by decide)

/-- Claim C4: for every foreground and background in [0,255],
`srgb_compose foreground 0 background = background` (transparency
identity). -/
theorem c4_transparency_identity (f b : Nat) (hf : f ≤ 255) (hb : b ≤ 255) :
    srgb_compose f 0 b = b := by
  simp [srgb_compose]

/-- Witness for C4 at foreground 123, background 45. -/
theorem c4_transparency_identity_witness : srgb_compose 123 0 45 = 45 :=
  c4_transparency_identity 123 45 (by decide) (by decide)

/-- Claim C5: for every foreground and background in [0,255],
`srgb_compose foreground 255 background = foreground` (opacity
identity). -/
theorem c5_opacity_identity (f b : Nat) (hf : f ≤ 255) (hb : b ≤ 255) :
    srgb_compose f 255 b = f := by
  simp [srgb_compose]

/-- Witness for C5 at foreground 100, background 200. -/
theorem c5_opacity_identity_witness : srgb_compose 100 255 200 = 100 :=
  c5_opacity_identity 100 200 (by decide) (by decide)

/-- Claim C6: on the malformed premultiplied-alpha input with foreground
134 exceeding alpha 118 over background 73, the function returns
exactly 173. -/
theorem c6_poc_case : srgb_compose 134 118 73 = 173 := by decide

/-- Claim C7: `srgb_compose 0 254 255 = 1` and `srgb_compose 0 253 255 = 2`,
and these adjacent-alpha results differ by exactly 1, the effect of the
`+127` round-to-nearest numerator adjustment. -/
theorem c7_rounding_boundary :
    srgb_compose 0 254 255 = 1 ∧ srgb_compose 0 253 255 = 2 ∧
    srgb_compose 0 253 255 - srgb_compose 0 254 255 = 1 := by decide

/-- Counterexample for C8: the test-vector table has no row with
background 73 and alpha 0, so it is false that the table contains both a
transparent (alpha = 0) and a partially transparent (0 < alpha < 255)
vector over the sentinel background 73. -/
theorem c8_counterexample :
    ¬ ((∃ t ∈ tests, t.bg = 73 ∧ t.alpha = 0) ∧
       (∃ t ∈ tests, t.bg = 73 ∧ 0 < t.alpha ∧ t.alpha < 255)) := by
  decide

/-- Claim C8 amended: the test-vector table contains at least one row
whose background is the sentinel 73 and whose alpha is strictly between
0 and 255 (partially transparent), but it contains no row with background
73 and alpha 0. -/
theorem c8_sentinel_vectors :
    (∃ t ∈ tests, t.bg = 73 ∧ 0 < t.alpha ∧ t.alpha < 255) ∧
    ¬ (∃ t ∈ tests, t.bg = 73 ∧ t.alpha = 0) := by
  decide

/-- Claim C9: for foreground and background in [0,255] and alpha in
[1,255], the composited result is never smaller than the foreground. -/
theorem c9_ge_foreground (f a b : Nat) (hf : f ≤ 255) (hb : b ≤ 255)
    (ha1 : 1 ≤ a) (ha2 : a ≤ 255) :
    f ≤ srgb_compose f a b := by
  rcases eq_or_ne a 255 with h | h
  · subst h
    simp [srgb_compose]
  · rw [srgb_compose_eq_min f a b (by omega) h]
    omega

/-- Witness for C9 at foreground 134, alpha 118, background 73. -/
theorem c9_ge_foreground_witness : 134 ≤ srgb_compose 134 118 73 :=
  c9_ge_foreground 134 118 73 (by decide) (by decide) (by decide) (by decide)

/-- Claim C10: for inputs in [0,255] with 1 ≤ alpha ≤ 254, the unclamped
blend value is at most 509, the largest intermediate
`(255 - alpha) * background + 127` is far below `2 ^ 32`, and evaluating
the blend branch with every operation reduced modulo `2 ^ 32`
(`srgb_compose_u32`) gives the same result as over unbounded naturals. -/
theorem c10_no_overflow (f a b : Nat) (hf : f ≤ 255) (ha1 : 1 ≤ a)
    (ha2 : a ≤ 254) (hb : b ≤ 255) :
    f + ((255 - a) * b + 127) / 255 ≤ 509 ∧
    (255 - a) * b + 127 < M32 ∧
    srgb_compose_u32 f a b = srgb_compose f a b := by
  have hmul : (255 - a) * b ≤ 64770 := by
    calc (255 - a) * b ≤ 254 * 255 := Nat.mul_le_mul (by omega) hb
    _ = 64770 := by norm_num
  have hdiv : ((255 - a) * b + 127) / 255 ≤ 254 := by omega
  have hM : (255 - a) * b + 127 < M32 := by
    simp only [M32]; omega
  refine ⟨by omega, hM, ?_⟩
  have h0 : a ≠ 0 := by omega
  have h255 : a ≠ 255 := by omega
  simp only [srgb_compose_u32, srgb_compose, if_neg h0, if_neg h255]
  have e1 : (255 + M32 - a) % M32 = 255 - a := by
    simp only [M32]; omega
  have e2 : (255 - a) * b % M32 = (255 - a) * b :=
    Nat.mod_eq_of_lt (by simp only [M32]; omega)
  have e3 : ((255 - a) * b + 127) % M32 = (255 - a) * b + 127 :=
    Nat.mod_eq_of_lt hM
  have e4 : (f + ((255 - a) * b + 127) / 255) % M32
      = f + ((255 - a) * b + 127) / 255 := by
    apply Nat.mod_eq_of_lt
    simp only [M32]; omega
  rw [e1, e2, e3, e4]

/-- Witness for C10 at foreground 254, alpha 1, background 254. -/
theorem c10_no_overflow_witness :
    254 + ((255 - 1) * 254 + 127) / 255 ≤ 509 ∧
    (255 - 1) * 254 + 127 < M32 ∧
    srgb_compose_u32 254 1 254 = srgb_compose 254 1 254 :=
  c10_no_overflow 254 1 254 (by decide) (by decide) (by decide) (by decide)

end Pngfix764
